import Mathlib

/-!
Verification of the font subsetting and packing pipeline (custom_u8g2_fonts).

The source (src/src/lib.rs) is a build-time font compiler: it resolves a
character selection to a sorted, deduplicated list of Unicode code points,
resolves the font path against the project root, drives the external
rasterizer `otf2bdf` and the external packer `bdfconv`, and manages the
transient intermediate `.bdf` file in between.

Shallow embedding conventions:
- Rust `char` values are embedded as their Unicode scalar values (`Nat`);
  values originating in literal text are obtained through Lean `Char`,
  which carries the same scalar-value invariant as Rust `char`.
- The `BTreeSet<char>` of `specs_to_unicode_code_points` is embedded as a
  strictly-sorted duplicate-free list maintained by sorted insertion
  (`btreeInsert`); iteration order of a `BTreeSet` is ascending, and the
  ordering on `char` is the ordering of scalar values.
- The filesystem is a list of existing paths; file contents are not
  tracked because the pipeline only transports opaque byte blobs.
- Each `Command::output()` call is recorded in a trace of spawned commands
  (program plus argument list); the outcome of each external process is
  supplied by the environment (`Env`), since the services are black boxes.
- `syn::Error` values are embedded as an inductive with one constructor
  per distinct error construction site in the source.
-/

/-- The `CharacterSet` enum of the source: an explicit string of characters
or one of the four named predefined sets. -/
inductive CharacterSet where
  | String (s : String)
  | Numbers
  | LowerCase
  | UpperCase
  | Punctuation
deriving DecidableEq

/-- Sorted insertion into a strictly-sorted list: the embedding of
`BTreeSet::insert` followed by ascending iteration. Inserting an element
already present leaves the list unchanged. -/
def btreeInsert (c : Nat) : List Nat → List Nat
  | [] => [c]
  | x :: xs =>
    if c < x then c :: x :: xs
    else if c = x then x :: xs
    else x :: btreeInsert c xs

/-- The punctuation characters of the source literal `".,<apostrophe>\"?!:;()-"`
(eleven characters; `Char.ofNat 39` is the apostrophe). -/
def punctuationChars : List Char :=
  ['.', ',', Char.ofNat 39, '"', '?', '!', ':', ';', '(', ')', '-']

/-- The characters contributed by one `CharacterSet` arm of the `match` in
`specs_to_unicode_code_points`, as scalar values, in the iteration order of
the source (`s.chars()` for strings, ascending char ranges for the named
sets). `'0'` is 48, `'a'` is 97, `'A'` is 65. -/
def charSetCodePoints : CharacterSet → List Nat
  | CharacterSet.String s => s.data.map Char.toNat
  | CharacterSet.Numbers => (List.range 10).map (fun i => 48 + i)
  | CharacterSet.LowerCase => (List.range 26).map (fun i => 97 + i)
  | CharacterSet.UpperCase => (List.range 26).map (fun i => 65 + i)
  | CharacterSet.Punctuation => punctuationChars.map Char.toNat

/-- Inserting every element of `cs` into the sorted set `acc`:
the embedding of the `for_each(|c| collected_chars.insert(c))` loops. -/
def insertAll (acc : List Nat) (cs : List Nat) : List Nat :=
  cs.foldl (fun a c => btreeInsert c a) acc

/-- `specs_to_unicode_code_points` of the source: fold every spec's
characters into one `BTreeSet`, then read it out ascending as `u32`
code points. -/
def specs_to_unicode_code_points (specs : List CharacterSet) : List Nat :=
  specs.foldl (fun acc spec => insertAll acc (charSetCodePoints spec)) []

/-- ASCII model of Rust `str::trim`, used by the source on captured stderr
before embedding it in an error message. -/
def isAsciiWhite (c : Char) : Bool :=
  c == ' ' || c == Char.ofNat 9 || c == Char.ofNat 10 || c == Char.ofNat 13

/-- Strip leading and trailing whitespace (model of `str::trim`). -/
def trimAscii (s : String) : String :=
  String.mk (((s.data.dropWhile isAsciiWhite).reverse.dropWhile isAsciiWhite).reverse)

/-- Model of `PathBuf::from(base).join(rel)`: an absolute `rel` replaces
the base, otherwise the two are joined with a separator. -/
def path_join (base rel : String) : String :=
  if rel.data.head? = some '/' then rel else base ++ "/" ++ rel

/-- Model of `Path::with_extension`: replace the extension after the last
dot of the final component (if any) with `ext`, otherwise append it. -/
def with_extension (p ext : String) : String :=
  let rev := p.data.reverse
  let rest := rev.dropWhile (fun c => c != '.' && c != '/')
  match rest with
  | c :: stemRev =>
    if c = '.' then String.mk (stemRev.reverse ++ ('.' :: ext.data))
    else String.mk (p.data ++ ('.' :: ext.data))
  | [] => String.mk (p.data ++ ('.' :: ext.data))

/-- Outcome of one `Command::output()` call, supplied by the environment:
the executable was not found (`io::ErrorKind::NotFound`), spawning failed
for another reason, or the process ran and produced an exit status,
stdout bytes and stderr text. -/
inductive SpawnOutcome where
  | notFound
  | otherError (msg : String)
  | ran (exitSuccess : Bool) (stdout : List Nat) (stderr : String)
deriving DecidableEq

/-- One spawned external command: program and argument list, in order. -/
structure Cmd where
  program : String
  args : List String
deriving DecidableEq

/-- Observable world state threaded through the pipeline: the set of
existing files and the trace of spawned commands. -/
structure World where
  fs : List String
  spawned : List Cmd
deriving DecidableEq

/-- The environment of one `generate_font_data` invocation: the
`CARGO_MANIFEST_DIR` env var (may be unset), the compile-time manifest dir
of the macro crate (`env!`, locating the bundled `bdfconv`), the initial
filesystem, the behavior of the two external services this run, and
whether the intermediate-file write and remove succeed. -/
structure Env where
  cargoManifestDir : Option String
  toolManifestDir : String
  initialFs : List String
  otf2bdf : SpawnOutcome
  bdfconv : SpawnOutcome
  writeOk : Bool
  removeOk : Bool

/-- One constructor per `syn::Error` construction site in the source. -/
inductive CompileError where
  | manifestDirNotSet
  | fontNotFound (path : String)
  | otf2bdfNotFound
  | otf2bdfSpawnError (msg : String)
  | otf2bdfFailed (stderr : String)
  | writeBdfFailed
  | bdfconvNotFound (toolPath : String)
  | bdfconvSpawnError (msg : String)
  | bdfconvFailed (stderr : String)
  | removeBdfFailed
deriving DecidableEq

deriving instance DecidableEq for Except

/-- `resolve_font_path` of the source: join `CARGO_MANIFEST_DIR` with the
literal path and check existence; error if the env var is unset or the
joined path does not exist. -/
def resolve_font_path (env : Env) (pathValue : String) :
    Except CompileError String :=
  match env.cargoManifestDir with
  | none => Except.error CompileError.manifestDirNotSet
  | some dir =>
    let font_path := path_join dir pathValue
    if font_path ∈ env.initialFs then Except.ok font_path
    else Except.error (CompileError.fontNotFound font_path)

/-- `generate_bdf_from_otf` of the source: spawn
`otf2bdf -p <size> -l "<space-joined code points>" <font_path>`, then
return its stdout on success, or the error matching the source's
error-handling branches. The spawned command is recorded in the trace. -/
def generate_bdf_from_otf (env : Env) (font_path : String)
    (size_value : String) (unicode_code_points : List Nat) (w : World) :
    Except CompileError (List Nat) × World :=
  let cmd : Cmd :=
    ⟨"otf2bdf",
      ["-p", size_value,
       "-l", String.intercalate " " (unicode_code_points.map Nat.repr),
       font_path]⟩
  let w : World := ⟨w.fs, w.spawned ++ [cmd]⟩
  match env.otf2bdf with
  | SpawnOutcome.notFound => (Except.error CompileError.otf2bdfNotFound, w)
  | SpawnOutcome.otherError m =>
      (Except.error (CompileError.otf2bdfSpawnError m), w)
  | SpawnOutcome.ran ok out err =>
      if ok then (Except.ok out, w)
      else (Except.error (CompileError.otf2bdfFailed (trimAscii err)), w)

/-- `generate_font_bytes_from_bdf` of the source: spawn the bundled
`bdfconv` (located under the macro crate's manifest dir) with
`-f 1 -m "<comma-joined code points>" -binary <bdf_file_path>`; return its
stdout on success, with the source's error-handling branches. -/
def generate_font_bytes_from_bdf (env : Env) (bdf_file_path : String)
    (unicode_code_points : List Nat) (w : World) :
    Except CompileError (List Nat) × World :=
  let bdfconv_path := path_join env.toolManifestDir "tools/bdfconv/bdfconv"
  let cmd : Cmd :=
    ⟨bdfconv_path,
      ["-f", "1",
       "-m", String.intercalate "," (unicode_code_points.map Nat.repr),
       "-binary", bdf_file_path]⟩
  let w : World := ⟨w.fs, w.spawned ++ [cmd]⟩
  match env.bdfconv with
  | SpawnOutcome.notFound =>
      (Except.error (CompileError.bdfconvNotFound bdfconv_path), w)
  | SpawnOutcome.otherError m =>
      (Except.error (CompileError.bdfconvSpawnError m), w)
  | SpawnOutcome.ran ok out err =>
      if ok then (Except.ok out, w)
      else (Except.error (CompileError.bdfconvFailed (trimAscii err)), w)

/-- `generate_font_data` of the source, the pipeline orchestrator:
resolve the font path, resolve the code points, rasterize, write the
intermediate `.bdf` file, pack, remove the intermediate file, and return
the packed bytes. Each `?` of the source is an early error return; the
write and remove steps mirror `fs::write` / `fs::remove_file` with their
`map_err` wrappers. The returned `World` is the final filesystem and the
trace of spawned commands. -/
def generate_font_data (env : Env) (path : String) (size_value : String)
    (specs : List CharacterSet) :
    Except CompileError (List Nat) × World :=
  let w0 : World := ⟨env.initialFs, []⟩
  match resolve_font_path env path with
  | Except.error e => (Except.error e, w0)
  | Except.ok font_path =>
    let unicode_code_points := specs_to_unicode_code_points specs
    let bdf_file_path := with_extension font_path "bdf"
    let r1 := generate_bdf_from_otf env font_path size_value unicode_code_points w0
    match r1.1 with
    | Except.error e => (Except.error e, r1.2)
    | Except.ok _bdf_output =>
      if env.writeOk then
        let w2 : World := ⟨bdf_file_path :: r1.2.fs, r1.2.spawned⟩
        let r2 := generate_font_bytes_from_bdf env bdf_file_path unicode_code_points w2
        match r2.1 with
        | Except.error e => (Except.error e, r2.2)
        | Except.ok font_bytes =>
          if env.removeOk then
            (Except.ok font_bytes, ⟨r2.2.fs.erase bdf_file_path, r2.2.spawned⟩)
          else (Except.error CompileError.removeBdfFailed, r2.2)
      else (Except.error CompileError.writeBdfFailed, r1.2)

/-! ### Properties of the character-set resolver -/

theorem mem_btreeInsert (a c : Nat) (l : List Nat) :
    a ∈ btreeInsert c l ↔ a = c ∨ a ∈ l := by
  induction l with
  | nil => simp [btreeInsert]
  | cons x xs ih =>
    by_cases h1 : c < x
    · simp [btreeInsert, h1, List.mem_cons]
    · by_cases h2 : c = x
      · subst h2
        have heq : btreeInsert c (c :: xs) = c :: xs := by
          simp [btreeInsert]
        rw [heq, List.mem_cons]
        tauto
      · simp only [btreeInsert, if_neg h1, if_neg h2, List.mem_cons, ih]
        tauto

theorem pairwise_btreeInsert (c : Nat) (l : List Nat)
    (h : l.Pairwise (· < ·)) : (btreeInsert c l).Pairwise (· < ·) := by
  induction l with
  | nil => simp [btreeInsert]
  | cons x xs ih =>
    rcases List.pairwise_cons.mp h with ⟨hx, hxs⟩
    by_cases h1 : c < x
    · simp only [btreeInsert, if_pos h1]
      refine List.pairwise_cons.mpr ⟨?_, h⟩
      intro b hb
      rcases List.mem_cons.mp hb with rfl | hb
      · exact h1
      · exact Nat.lt_trans h1 (hx b hb)
    · by_cases h2 : c = x
      · simp only [btreeInsert, if_neg h1, if_pos h2]
        exact h
      · simp only [btreeInsert, if_neg h1, if_neg h2]
        refine List.pairwise_cons.mpr ⟨?_, ih hxs⟩
        intro b hb
        rcases (mem_btreeInsert b c xs).mp hb with rfl | hb
        · omega
        · exact hx b hb

theorem mem_insertAll (acc cs : List Nat) (a : Nat) :
    a ∈ insertAll acc cs ↔ a ∈ acc ∨ a ∈ cs := by
  induction cs generalizing acc with
  | nil => simp [insertAll]
  | cons c cs ih =>
    have hstep : insertAll acc (c :: cs) = insertAll (btreeInsert c acc) cs := rfl
    rw [hstep, ih, mem_btreeInsert]
    simp only [List.mem_cons]
    tauto

theorem pairwise_insertAll (acc cs : List Nat)
    (h : acc.Pairwise (· < ·)) : (insertAll acc cs).Pairwise (· < ·) := by
  induction cs generalizing acc with
  | nil => exact h
  | cons c cs ih => exact ih _ (pairwise_btreeInsert c acc h)

theorem mem_resolve_fold (specs : List CharacterSet) (acc : List Nat) (a : Nat) :
    a ∈ specs.foldl (fun acc spec => insertAll acc (charSetCodePoints spec)) acc ↔
      a ∈ acc ∨ ∃ s ∈ specs, a ∈ charSetCodePoints s := by
  induction specs generalizing acc with
  | nil => simp
  | cons s ss ih =>
    simp only [List.foldl_cons]
    rw [ih, mem_insertAll]
    simp only [List.mem_cons]
    constructor
    · rintro ((h | h) | ⟨t, ht, h⟩)
      · exact Or.inl h
      · exact Or.inr ⟨s, Or.inl rfl, h⟩
      · exact Or.inr ⟨t, Or.inr ht, h⟩
    · rintro (h | ⟨t, rfl | ht, h⟩)
      · exact Or.inl (Or.inl h)
      · exact Or.inl (Or.inr h)
      · exact Or.inr ⟨t, ht, h⟩

theorem mem_specs_to_unicode_code_points (specs : List CharacterSet) (a : Nat) :
    a ∈ specs_to_unicode_code_points specs ↔
      ∃ s ∈ specs, a ∈ charSetCodePoints s := by
  rw [specs_to_unicode_code_points, mem_resolve_fold]
  simp

theorem pairwise_resolve_fold (specs : List CharacterSet) (acc : List Nat)
    (h : acc.Pairwise (· < ·)) :
    (specs.foldl (fun acc spec =>
      insertAll acc (charSetCodePoints spec)) acc).Pairwise (· < ·) := by
  induction specs generalizing acc with
  | nil => exact h
  | cons s ss ih => exact ih _ (pairwise_insertAll _ _ h)

theorem pairwise_specs_to_unicode_code_points (specs : List CharacterSet) :
    (specs_to_unicode_code_points specs).Pairwise (· < ·) :=
  pairwise_resolve_fold specs [] (List.Pairwise.nil)

theorem pairwise_lt_ext (l₁ l₂ : List Nat) (h₁ : l₁.Pairwise (· < ·))
    (h₂ : l₂.Pairwise (· < ·)) (hm : ∀ a, a ∈ l₁ ↔ a ∈ l₂) : l₁ = l₂ := by
  have d₁ : l₁.Nodup := h₁.imp Nat.ne_of_lt
  have d₂ : l₂.Nodup := h₂.imp Nat.ne_of_lt
  have hp : l₁.Perm l₂ := (List.perm_ext_iff_of_nodup d₁ d₂).mpr hm
  haveI : IsAntisymm Nat (· < ·) :=
    ⟨fun a b hab hba => absurd hba (Nat.lt_asymm hab)⟩
  exact List.eq_of_perm_of_sorted hp h₁ h₂

/-- C5: for every CharacterSelection — any list of explicit strings and
named sets, including strings with repeated characters — the resolved
CodePointSet is strictly increasing (hence has no repeated value), and
"aabbcc" resolves to exactly [97, 98, 99]. -/
theorem resolved_set_strictly_increasing_dedup :
    (∀ specs : List CharacterSet,
        (specs_to_unicode_code_points specs).Pairwise (· < ·) ∧
        (specs_to_unicode_code_points specs).Nodup) ∧
    specs_to_unicode_code_points [CharacterSet.String "aabbcc"] = [97, 98, 99] := by
  refine ⟨fun specs => ⟨pairwise_specs_to_unicode_code_points specs, ?_⟩, by decide⟩
  exact (pairwise_specs_to_unicode_code_points specs).imp Nat.ne_of_lt

/-- C6: resolving a selection list is invariant under permutation of its
entries — permuted selection lists produce the same CodePointSet, so the
result is the order-independent union of the per-entry resolutions. -/
theorem resolve_perm_invariant (s₁ s₂ : List CharacterSet) (h : s₁.Perm s₂) :
    specs_to_unicode_code_points s₁ = specs_to_unicode_code_points s₂ := by
  refine pairwise_lt_ext _ _ (pairwise_specs_to_unicode_code_points s₁)
    (pairwise_specs_to_unicode_code_points s₂) (fun a => ?_)
  rw [mem_specs_to_unicode_code_points, mem_specs_to_unicode_code_points]
  constructor
  · rintro ⟨s, hs, ha⟩
    exact ⟨s, h.mem_iff.mp hs, ha⟩
  · rintro ⟨s, hs, ha⟩
    exact ⟨s, h.mem_iff.mpr hs, ha⟩

/-- Witness for C6: the concrete pair of the spec, `{"ab", Numbers}`
versus `{Numbers, "ab"}`. -/
theorem resolve_perm_invariant_witness :
    List.Perm [CharacterSet.String "ab", CharacterSet.Numbers]
        [CharacterSet.Numbers, CharacterSet.String "ab"] ∧
    specs_to_unicode_code_points [CharacterSet.String "ab", CharacterSet.Numbers] =
      specs_to_unicode_code_points [CharacterSet.Numbers, CharacterSet.String "ab"] :=
  ⟨List.Perm.swap CharacterSet.Numbers (CharacterSet.String "ab") [],
   resolve_perm_invariant _ _
     (List.Perm.swap CharacterSet.Numbers (CharacterSet.String "ab") [])⟩

/-- C7: each named predefined set resolves to exactly its fixed contents:
Numbers to 48–57, LowerCase to 97–122, UpperCase to 65–90, and
Punctuation to exactly the code points of the eleven characters of the
source literal (33 `!`, 34 `"`, 39 apostrophe, 40 `(`, 41 `)`, 44 `,`,
45 `-`, 46 `.`, 58 `:`, 59 `;`, 63 `?`), and nothing else. -/
theorem named_sets_fixed_contents :
    specs_to_unicode_code_points [CharacterSet.Numbers] =
        [48, 49, 50, 51, 52, 53, 54, 55, 56, 57] ∧
    specs_to_unicode_code_points [CharacterSet.LowerCase] =
        [97, 98, 99, 100, 101, 102, 103, 104, 105, 106, 107, 108, 109,
         110, 111, 112, 113, 114, 115, 116, 117, 118, 119, 120, 121, 122] ∧
    specs_to_unicode_code_points [CharacterSet.UpperCase] =
        [65, 66, 67, 68, 69, 70, 71, 72, 73, 74, 75, 76, 77, 78, 79, 80,
         81, 82, 83, 84, 85, 86, 87, 88, 89, 90] ∧
    specs_to_unicode_code_points [CharacterSet.Punctuation] =
        [33, 34, 39, 40, 41, 44, 45, 46, 58, 59, 63] := by
  refine ⟨by decide, by decide, by decide, by decide⟩

/-- C10: every element of the resolved CodePointSet is a valid Unicode
scalar value — at most 0x10FFFF and not a surrogate — because every
element is obtained from a character value. -/
theorem resolved_code_points_valid_scalars (specs : List CharacterSet)
    (n : Nat) (h : n ∈ specs_to_unicode_code_points specs) :
    n ≤ 0x10FFFF ∧ ¬(0xD800 ≤ n ∧ n ≤ 0xDFFF) := by
  rcases (mem_specs_to_unicode_code_points specs n).mp h with ⟨s, _, hn⟩
  cases s with
  | String str =>
    rcases List.mem_map.mp hn with ⟨c, _, rfl⟩
    have hv : Nat.isValidChar c.toNat := c.valid
    rcases hv with hlt | ⟨hlo, hhi⟩ <;> constructor <;> omega
  | Numbers =>
    rcases List.mem_map.mp hn with ⟨i, hi, rfl⟩
    rw [List.mem_range] at hi
    constructor <;> omega
  | LowerCase =>
    rcases List.mem_map.mp hn with ⟨i, hi, rfl⟩
    rw [List.mem_range] at hi
    constructor <;> omega
  | UpperCase =>
    rcases List.mem_map.mp hn with ⟨i, hi, rfl⟩
    rw [List.mem_range] at hi
    constructor <;> omega
  | Punctuation =>
    rcases List.mem_map.mp hn with ⟨c, _, rfl⟩
    have hv : Nat.isValidChar c.toNat := c.valid
    rcases hv with hlt | ⟨hlo, hhi⟩ <;> constructor <;> omega

/-- Witness for C10: code point 97 of the selection `{"a"}`. -/
theorem resolved_code_points_valid_scalars_witness :
    97 ∈ specs_to_unicode_code_points [CharacterSet.String "a"] ∧
    (97 ≤ 0x10FFFF ∧ ¬(0xD800 ≤ 97 ∧ 97 ≤ 0xDFFF)) :=
  ⟨by decide, resolved_code_points_valid_scalars [CharacterSet.String "a"] 97 (by decide)⟩

/-! ### Properties of the pipeline orchestrator -/

/-- The world after `generate_bdf_from_otf`: the filesystem is untouched
and the `otf2bdf` invocation is appended to the trace, on every branch. -/
theorem generate_bdf_from_otf_world (env : Env) (fp sz : String)
    (u : List Nat) (w : World) :
    (generate_bdf_from_otf env fp sz u w).2 =
      ⟨w.fs, w.spawned ++
        [⟨"otf2bdf",
          ["-p", sz, "-l", String.intercalate " " (u.map Nat.repr), fp]⟩]⟩ := by
  unfold generate_bdf_from_otf
  cases env.otf2bdf with
  | notFound => rfl
  | otherError m => rfl
  | ran ok out err => cases ok <;> rfl

/-- The world after `generate_font_bytes_from_bdf`: the filesystem is
untouched and the `bdfconv` invocation is appended, on every branch. -/
theorem generate_font_bytes_from_bdf_world (env : Env) (bp : String)
    (u : List Nat) (w : World) :
    (generate_font_bytes_from_bdf env bp u w).2 =
      ⟨w.fs, w.spawned ++
        [⟨path_join env.toolManifestDir "tools/bdfconv/bdfconv",
          ["-f", "1", "-m", String.intercalate "," (u.map Nat.repr),
           "-binary", bp]⟩]⟩ := by
  unfold generate_font_bytes_from_bdf
  cases env.bdfconv with
  | notFound => rfl
  | otherError m => rfl
  | ran ok out err => cases ok <;> rfl

/-- When the pipeline reaches both stages (path resolves, rasterizer
succeeds, intermediate write succeeds), the spawned trace is exactly the
`otf2bdf` invocation followed by the `bdfconv` invocation, with the
space-joined and comma-joined code-point selectors. -/
theorem generate_font_data_spawned (env : Env) (path sz : String)
    (specs : List CharacterSet) (d : String) (out : List Nat) (err : String)
    (hd : env.cargoManifestDir = some d)
    (hfont : path_join d path ∈ env.initialFs)
    (hras : env.otf2bdf = SpawnOutcome.ran true out err)
    (hw : env.writeOk = true) :
    (generate_font_data env path sz specs).2.spawned =
      [⟨"otf2bdf",
        ["-p", sz, "-l",
         String.intercalate " " ((specs_to_unicode_code_points specs).map Nat.repr),
         path_join d path]⟩,
       ⟨path_join env.toolManifestDir "tools/bdfconv/bdfconv",
        ["-f", "1", "-m",
         String.intercalate "," ((specs_to_unicode_code_points specs).map Nat.repr),
         "-binary", with_extension (path_join d path) "bdf"]⟩] := by
  have h1 := generate_bdf_from_otf_world env (path_join d path) sz
    (specs_to_unicode_code_points specs) ⟨env.initialFs, []⟩
  have h2 := generate_font_bytes_from_bdf_world env
    (with_extension (path_join d path) "bdf")
    (specs_to_unicode_code_points specs)
  simp only [generate_font_data, resolve_font_path, hd, hfont, if_true, hw]
  unfold generate_bdf_from_otf at h1 ⊢
  rw [hras] at h1 ⊢
  simp only [if_true] at h1 ⊢
  cases henv : env.bdfconv with
  | notFound =>
    unfold generate_font_bytes_from_bdf
    rw [henv]
    simp [h1]
  | otherError m =>
    unfold generate_font_bytes_from_bdf
    rw [henv]
    simp [h1]
  | ran ok2 out2 err2 =>
    unfold generate_font_bytes_from_bdf
    rw [henv]
    cases ok2 <;> cases hrm : env.removeOk <;> simp [h1]

/-- A concrete environment in which every stage succeeds: the project root
is `/proj`, the tool root `/tool`, the font `/proj/f.otf` exists, both
services succeed (rasterizer stdout `[7]`, packer stdout `[9]`), and the
intermediate write and remove succeed. -/
def okEnv : Env :=
  ⟨some "/proj", "/tool", ["/proj/f.otf"],
   SpawnOutcome.ran true [7] "", SpawnOutcome.ran true [9] "", true, true⟩

/-- Like `okEnv`, except the packer runs and exits non-zero with stderr
`boom`. -/
def packerFailEnv : Env :=
  ⟨some "/proj", "/tool", ["/proj/f.otf"],
   SpawnOutcome.ran true [7] "", SpawnOutcome.ran false [] "boom", true, true⟩

/-- Like `okEnv`, except the rasterizer runs and exits non-zero with
stderr `bad glyph table`. -/
def rasterFailEnv : Env :=
  ⟨some "/proj", "/tool", ["/proj/f.otf"],
   SpawnOutcome.ran false [] "bad glyph table",
   SpawnOutcome.ran true [9] "", true, true⟩

/-- C4: for a request with characterSelection = Numbers, the rasterizer
receives the decimal code points joined by single spaces,
`-l "48 49 50 51 52 53 54 55 56 57"`, and the packer receives the same
code points joined by commas, `-m "48,49,50,51,52,53,54,55,56,57"`. -/
theorem numbers_selection_service_arguments (env : Env) (path sz d : String)
    (out : List Nat) (err : String)
    (hd : env.cargoManifestDir = some d)
    (hfont : path_join d path ∈ env.initialFs)
    (hras : env.otf2bdf = SpawnOutcome.ran true out err)
    (hw : env.writeOk = true) :
    (generate_font_data env path sz [CharacterSet.Numbers]).2.spawned =
      [⟨"otf2bdf",
        ["-p", sz, "-l", "48 49 50 51 52 53 54 55 56 57", path_join d path]⟩,
       ⟨path_join env.toolManifestDir "tools/bdfconv/bdfconv",
        ["-f", "1", "-m", "48,49,50,51,52,53,54,55,56,57", "-binary",
         with_extension (path_join d path) "bdf"]⟩] := by
  rw [generate_font_data_spawned env path sz [CharacterSet.Numbers] d out err
    hd hfont hras hw]
  have hl : String.intercalate " "
      ((specs_to_unicode_code_points [CharacterSet.Numbers]).map Nat.repr) =
      "48 49 50 51 52 53 54 55 56 57" := by decide
  have hm : String.intercalate ","
      ((specs_to_unicode_code_points [CharacterSet.Numbers]).map Nat.repr) =
      "48,49,50,51,52,53,54,55,56,57" := by decide
  rw [hl, hm]

/-- Witness for C4: the concrete all-success environment. -/
theorem numbers_selection_service_arguments_witness :
    okEnv.cargoManifestDir = some "/proj" ∧
    path_join "/proj" "f.otf" ∈ okEnv.initialFs ∧
    okEnv.otf2bdf = SpawnOutcome.ran true [7] "" ∧
    okEnv.writeOk = true ∧
    (generate_font_data okEnv "f.otf" "12" [CharacterSet.Numbers]).2.spawned =
      [⟨"otf2bdf",
        ["-p", "12", "-l", "48 49 50 51 52 53 54 55 56 57", path_join "/proj" "f.otf"]⟩,
       ⟨path_join okEnv.toolManifestDir "tools/bdfconv/bdfconv",
        ["-f", "1", "-m", "48,49,50,51,52,53,54,55,56,57", "-binary",
         with_extension (path_join "/proj" "f.otf") "bdf"]⟩] :=
  ⟨rfl, by decide, rfl, rfl,
   numbers_selection_service_arguments okEnv "f.otf" "12" "/proj" [7] ""
     rfl (by decide) rfl rfl⟩

/-- C2 counterexample: with no CharacterSelection supplied the code joins
the (empty) code-point list, so the rasterizer receives `-l ""` and the
packer `-m ""`; in particular no spawned command carries a `32-127`
range selector, contradicting the claimed `-m "32-127"`. -/
theorem empty_selection_range_counterexample :
    (generate_font_data okEnv "f.otf" "10" []).2.spawned =
      [⟨"otf2bdf", ["-p", "10", "-l", "", "/proj/f.otf"]⟩,
       ⟨"/tool/tools/bdfconv/bdfconv",
        ["-f", "1", "-m", "", "-binary", "/proj/f.bdf"]⟩] ∧
    (∀ c ∈ (generate_font_data okEnv "f.otf" "10" []).2.spawned,
      "32-127" ∉ c.args) := by
  decide

/-- C2 amended: when no CharacterSelection is supplied, the resolved
CodePointSet is empty and both Conversion Services receive an empty
explicit-list selector — the rasterizer `-l ""` and the packer `-m ""`;
no range form such as `32-127` is ever used. -/
theorem empty_selection_empty_selector_arguments (env : Env) (path sz d : String)
    (out : List Nat) (err : String)
    (hd : env.cargoManifestDir = some d)
    (hfont : path_join d path ∈ env.initialFs)
    (hras : env.otf2bdf = SpawnOutcome.ran true out err)
    (hw : env.writeOk = true) :
    (generate_font_data env path sz []).2.spawned =
      [⟨"otf2bdf", ["-p", sz, "-l", "", path_join d path]⟩,
       ⟨path_join env.toolManifestDir "tools/bdfconv/bdfconv",
        ["-f", "1", "-m", "", "-binary",
         with_extension (path_join d path) "bdf"]⟩] := by
  rw [generate_font_data_spawned env path sz [] d out err hd hfont hras hw]
  rfl

/-- Witness for the amended C2: the concrete all-success environment. -/
theorem empty_selection_empty_selector_arguments_witness :
    okEnv.cargoManifestDir = some "/proj" ∧
    path_join "/proj" "f.otf" ∈ okEnv.initialFs ∧
    okEnv.otf2bdf = SpawnOutcome.ran true [7] "" ∧
    okEnv.writeOk = true ∧
    (generate_font_data okEnv "f.otf" "10" []).2.spawned =
      [⟨"otf2bdf", ["-p", "10", "-l", "", path_join "/proj" "f.otf"]⟩,
       ⟨path_join okEnv.toolManifestDir "tools/bdfconv/bdfconv",
        ["-f", "1", "-m", "", "-binary",
         with_extension (path_join "/proj" "f.otf") "bdf"]⟩] :=
  ⟨rfl, by decide, rfl, rfl,
   empty_selection_empty_selector_arguments okEnv "f.otf" "10" "/proj" [7] ""
     rfl (by decide) rfl rfl⟩

/-- C8: when the resolved font path (project root joined with the
caller-relative path) does not exist, `generate_font_data` fails with the
font-not-found error reporting the attempted path, the filesystem is
untouched, and no subprocess is ever spawned (empty trace). -/
theorem font_not_found_no_spawn (env : Env) (path sz : String)
    (specs : List CharacterSet) (d : String)
    (hd : env.cargoManifestDir = some d)
    (hmiss : path_join d path ∉ env.initialFs) :
    generate_font_data env path sz specs =
      (Except.error (CompileError.fontNotFound (path_join d path)),
       ⟨env.initialFs, []⟩) := by
  simp [generate_font_data, resolve_font_path, hd, hmiss]

/-- Witness for C8: `missing/font.ttf` does not exist under `/proj`. -/
theorem font_not_found_no_spawn_witness :
    okEnv.cargoManifestDir = some "/proj" ∧
    path_join "/proj" "missing/font.ttf" ∉ okEnv.initialFs ∧
    generate_font_data okEnv "missing/font.ttf" "10" [CharacterSet.Numbers] =
      (Except.error (CompileError.fontNotFound (path_join "/proj" "missing/font.ttf")),
       ⟨okEnv.initialFs, []⟩) :=
  ⟨rfl, by decide,
   font_not_found_no_spawn okEnv "missing/font.ttf" "10" [CharacterSet.Numbers]
     "/proj" rfl (by decide)⟩

/-- C9: when the rasterizer runs but exits non-zero, `generate_font_data`
fails with the rasterizer-failure error carrying the captured (trimmed)
stderr text, and the filesystem is untouched — the intermediate `.bdf`
file is never created. -/
theorem rasterizer_failure_surfaces_stderr (env : Env) (path sz : String)
    (specs : List CharacterSet) (d : String) (out : List Nat) (err : String)
    (hd : env.cargoManifestDir = some d)
    (hfont : path_join d path ∈ env.initialFs)
    (hras : env.otf2bdf = SpawnOutcome.ran false out err) :
    (generate_font_data env path sz specs).1 =
        Except.error (CompileError.otf2bdfFailed (trimAscii err)) ∧
    (generate_font_data env path sz specs).2.fs = env.initialFs := by
  simp only [generate_font_data, resolve_font_path, hd, hfont, if_true]
  unfold generate_bdf_from_otf
  rw [hras]
  simp

/-- Witness for C9: the rasterizer exits non-zero with stderr
`bad glyph table` (whose trim is itself). -/
theorem rasterizer_failure_surfaces_stderr_witness :
    rasterFailEnv.cargoManifestDir = some "/proj" ∧
    path_join "/proj" "f.otf" ∈ rasterFailEnv.initialFs ∧
    rasterFailEnv.otf2bdf = SpawnOutcome.ran false [] "bad glyph table" ∧
    trimAscii "bad glyph table" = "bad glyph table" ∧
    (generate_font_data rasterFailEnv "f.otf" "10" [CharacterSet.Numbers]).1 =
        Except.error (CompileError.otf2bdfFailed (trimAscii "bad glyph table")) ∧
    (generate_font_data rasterFailEnv "f.otf" "10" [CharacterSet.Numbers]).2.fs =
        rasterFailEnv.initialFs :=
  ⟨rfl, by decide, rfl, by decide,
   rasterizer_failure_surfaces_stderr rasterFailEnv "f.otf" "10"
     [CharacterSet.Numbers] "/proj" [] "bad glyph table" rfl (by decide) rfl⟩

/-- C1 counterexample: when the packer exits non-zero after the
intermediate file was created, `generate_font_data` returns the packer
error but the intermediate `/proj/f.bdf` is still on disk — the early
`?`-return skips the `fs::remove_file` call. -/
theorem cleanup_invariant_counterexample :
    (generate_font_data packerFailEnv "f.otf" "10" []).1 =
        Except.error (CompileError.bdfconvFailed "boom") ∧
    "/proj/f.bdf" ∈ (generate_font_data packerFailEnv "f.otf" "10" []).2.fs := by
  decide

/-- C1 amended: on the success path the intermediate file is removed —
whenever `generate_font_data` returns `ok`, the final filesystem equals
the initial one, so the transient `.bdf` file does not remain. (When the
packer stage fails, the file is left behind; see the counterexample.) -/
theorem intermediate_removed_on_success (env : Env) (path sz : String)
    (specs : List CharacterSet) (bytes : List Nat)
    (hok : (generate_font_data env path sz specs).1 = Except.ok bytes) :
    (generate_font_data env path sz specs).2.fs = env.initialFs := by
  simp only [generate_font_data] at hok ⊢
  cases hres : resolve_font_path env path with
  | error e => simp [hres] at hok
  | ok fp =>
    simp only [hres] at hok ⊢
    cases h1 : (generate_bdf_from_otf env fp sz
        (specs_to_unicode_code_points specs) ⟨env.initialFs, []⟩).1 with
    | error e => simp [h1] at hok
    | ok bs =>
      simp only [h1] at hok ⊢
      cases hw : env.writeOk with
      | false => simp [hw] at hok
      | true =>
        simp only [hw, if_true] at hok ⊢
        cases h2 : (generate_font_bytes_from_bdf env
            (with_extension fp "bdf") (specs_to_unicode_code_points specs)
            ⟨with_extension fp "bdf" ::
              (generate_bdf_from_otf env fp sz
                (specs_to_unicode_code_points specs) ⟨env.initialFs, []⟩).2.fs,
             (generate_bdf_from_otf env fp sz
                (specs_to_unicode_code_points specs) ⟨env.initialFs, []⟩).2.spawned⟩).1 with
        | error e => simp [h2] at hok
        | ok fb =>
          simp only [h2] at hok ⊢
          cases hrm : env.removeOk with
          | false => simp [hrm] at hok
          | true =>
            simp only [hrm, if_true]
            rw [generate_font_bytes_from_bdf_world]
            rw [generate_bdf_from_otf_world]
            simp

/-- Witness for the amended C1: the all-success environment restores the
filesystem. -/
theorem intermediate_removed_on_success_witness :
    (generate_font_data okEnv "f.otf" "10" []).1 = Except.ok [9] ∧
    (generate_font_data okEnv "f.otf" "10" []).2.fs = okEnv.initialFs :=
  ⟨by decide,
   intermediate_removed_on_success okEnv "f.otf" "10" [] [9] (by decide)⟩

/-- C3 counterexample: a selection that resolves to the empty CodePointSet
is not rejected — with the all-success environment the call succeeds and
both Conversion Services are spawned, so no empty-selection error is
reported before spawning. -/
theorem empty_selection_error_counterexample :
    (generate_font_data okEnv "f.otf" "10" [CharacterSet.String ""]).1 =
        Except.ok [9] ∧
    (generate_font_data okEnv "f.otf" "10" [CharacterSet.String ""]).2.spawned.length = 2 := by
  decide

/-- C3 amended: the code never rejects an empty resolved CodePointSet;
whenever the font path resolves, the pipeline proceeds to spawn the
rasterizer with the empty selector `-l ""` as its first subprocess. -/
theorem empty_selection_not_rejected (env : Env) (path sz : String)
    (specs : List CharacterSet) (d : String)
    (hd : env.cargoManifestDir = some d)
    (hfont : path_join d path ∈ env.initialFs)
    (hempty : specs_to_unicode_code_points specs = []) :
    (generate_font_data env path sz specs).2.spawned.head? =
      some ⟨"otf2bdf", ["-p", sz, "-l", "", path_join d path]⟩ := by
  have h1 : (generate_bdf_from_otf env (path_join d path) sz []
      ⟨env.initialFs, []⟩).2 =
      ⟨env.initialFs,
       [⟨"otf2bdf", ["-p", sz, "-l", "", path_join d path]⟩]⟩ := by
    rw [generate_bdf_from_otf_world]
    rfl
  simp only [generate_font_data, resolve_font_path, hd, hfont, if_true]
  rw [hempty]
  cases hr1 : (generate_bdf_from_otf env (path_join d path) sz []
      ⟨env.initialFs, []⟩).1 with
  | error e => simp [hr1, h1]
  | ok bs =>
    cases hw : env.writeOk with
    | false => simp [hr1, hw, h1]
    | true =>
      simp only [hr1, hw, if_true]
      rw [h1]
      dsimp only
      have h2 : (generate_font_bytes_from_bdf env
          (with_extension (path_join d path) "bdf") []
          ⟨with_extension (path_join d path) "bdf" :: env.initialFs,
           [⟨"otf2bdf", ["-p", sz, "-l", "", path_join d path]⟩]⟩).2 =
          ⟨with_extension (path_join d path) "bdf" :: env.initialFs,
           [⟨"otf2bdf", ["-p", sz, "-l", "", path_join d path]⟩,
            ⟨path_join env.toolManifestDir "tools/bdfconv/bdfconv",
             ["-f", "1", "-m", "", "-binary",
              with_extension (path_join d path) "bdf"]⟩]⟩ := by
        rw [generate_font_bytes_from_bdf_world]
        rfl
      cases hr2 : (generate_font_bytes_from_bdf env
          (with_extension (path_join d path) "bdf") []
          ⟨with_extension (path_join d path) "bdf" :: env.initialFs,
           [⟨"otf2bdf", ["-p", sz, "-l", "", path_join d path]⟩]⟩).1 with
      | error e => simp [hr2, h2]
      | ok fb =>
        cases hrm : env.removeOk with
        | false => simp [hr2, hrm, h2]
        | true => simp [hr2, hrm, h2]

/-- Witness for the amended C3: the explicit empty string selection. -/
theorem empty_selection_not_rejected_witness :
    okEnv.cargoManifestDir = some "/proj" ∧
    path_join "/proj" "f.otf" ∈ okEnv.initialFs ∧
    specs_to_unicode_code_points [CharacterSet.String ""] = [] ∧
    (generate_font_data okEnv "f.otf" "10" [CharacterSet.String ""]).2.spawned.head? =
      some ⟨"otf2bdf", ["-p", "10", "-l", "", path_join "/proj" "f.otf"]⟩ :=
  ⟨rfl, by decide, by decide,
   empty_selection_not_rejected okEnv "f.otf" "10" [CharacterSet.String ""]
     "/proj" rfl (by decide) (by decide)⟩

example : specs_to_unicode_code_points [CharacterSet.String "aabbcc"] = [97, 98, 99] := by decide
example : specs_to_unicode_code_points [CharacterSet.Numbers] = [48, 49, 50, 51, 52, 53, 54, 55, 56, 57] := by decide
example : String.intercalate " " ((specs_to_unicode_code_points [CharacterSet.Numbers]).map Nat.repr) = "48 49 50 51 52 53 54 55 56 57" := by decide
example : with_extension (path_join "/proj" "fonts/x.otf") "bdf" = "/proj/fonts/x.bdf" := by decide
